import Mathlib

/-!
Verification of the goalGG-server membership & subscription engine.

The development shallowly embeds the club-domain services
(`src/services/clubService.ts`, `src/services/userService.ts`) over an
association-list document store.  Documents are keyed by `Nat` ids
(standing for Mongo ObjectIds; the `ObjectId.isValid` shape checks are
not modelled, every `Nat` is a valid id).  Every `throw AppError.*` in
the source happens before the first database write of its operation, so
an operation returning `Except.error e` performs no mutation; the
embedding makes this explicit by returning the post-state only on the
non-throwing paths.

The User schema (`src/models/User.ts`) defines only the group-domain
fields `groups`, `groupsRequests`, `subscriptions.groupIds` and
`subscriptions.maxGroups` (plus the shared `subscriptions.maxPlayers`,
`cost`, dates and `isActive`), and does not disable Mongoose strict
mode.  The club services however read and write the club-domain paths
`clubs`, `clubsRequests`, `subscriptions.clubIds` and
`subscriptions.maxClubs` on User documents.  Under strict mode those
reads are `undefined` and those update paths are stripped, so the
embedding models them as their actual runtime denotations: the quota
read is 0, and the user-side club writes are no-ops.  The bulk
`Club.updateMany` of `updateUserSubscription` embeds the aggregation
operators `$cond`/`$size` in an object-form (non-pipeline) update;
MongoDB does not evaluate aggregation expressions there, and Mongoose
rejects the call while casting the `$cond` object against the
String-enum `status` path — before anything is written; the embedding
models that rejection as a `castError` result.
-/

inductive ClubStatus where
  | active
  | inactive
  | full
deriving DecidableEq

inductive UserRole where
  | user
  | silver
  | gold
  | premium
  | superAdmin
deriving DecidableEq

/-- One element of `Club.members` (embedded member record). -/
structure Member where
  userId : Nat
  skillRating : Nat
  positions : List String
  goals : Nat
  assists : Nat
  points : Nat
  matchesCount : Nat
deriving DecidableEq

/-- One element of `Club.pendingRequests`. -/
structure PendingRequest where
  userId : Nat
  role : String
deriving DecidableEq

structure Club where
  name : String
  admin : Nat
  captains : List Nat
  members : List Member
  pendingRequests : List PendingRequest
  status : ClubStatus
  maxPlayers : Nat
deriving DecidableEq

/-- The `subscriptions` sub-document of the User schema
(models/User.ts:313-341).  Its only id-list/quota fields are the
group-domain `groupIds` and `maxGroups`; the club-domain `clubIds` and
`maxClubs` read by the club services are not schema paths. -/
structure Subscriptions where
  groupIds : List Nat
  maxGroups : Nat
  maxPlayers : Nat
  cost : Nat
  startDate : Option Nat
  endDate : Option Nat
  isActive : Bool
deriving DecidableEq

/-- A User document restricted to the schema fields the modelled
operations touch (models/User.ts).  The schema has `groups` and
`groupsRequests` but no `clubs`/`clubsRequests`; the club services'
`$addToSet`/`$pull` on the latter are stripped by strict mode. -/
structure UserDoc where
  role : UserRole
  avgSkillRating : Nat
  positions : List String
  groups : List Nat
  groupsRequests : List Nat
  subscriptions : Subscriptions
deriving DecidableEq

/-- The document store: clubs and users keyed by id.  `nextClubId` is the
fresh id used by `Club.create`. -/
structure DB where
  clubs : List (Nat × Club)
  users : List (Nat × UserDoc)
  nextClubId : Nat
deriving DecidableEq

/-- `findById`: first entry with the given key. -/
def lookupD {α : Type} : List (Nat × α) → Nat → Option α
  | [], _ => none
  | (k, v) :: rest, id => if k = id then some v else lookupD rest id

/-- `findByIdAndUpdate`: rewrite the value at the given key (no-op when the
key is absent). -/
def updateD {α : Type} : List (Nat × α) → Nat → (α → α) → List (Nat × α)
  | [], _, _ => []
  | (k, v) :: rest, id, f => (k, if k = id then f v else v) :: updateD rest id f

def DB.findClub (db : DB) (id : Nat) : Option Club :=
  lookupD db.clubs id

def DB.findUser (db : DB) (id : Nat) : Option UserDoc :=
  lookupD db.users id

def DB.setClub (db : DB) (id : Nat) (f : Club → Club) : DB :=
  { db with clubs := updateD db.clubs id f }

/-- Mongo `$addToSet` on an id array. -/
def addToSet (l : List Nat) (x : Nat) : List Nat :=
  if x ∈ l then l else l ++ [x]

/-- Failures an operation can surface as a rejected promise:
`badRequest`/`notFound`/`forbidden` are the `AppError` taxonomy of
`errorMiddleware`; `castError` stands for a Mongoose `CastError` raised
while casting a malformed update document (client-side, before any
write). -/
inductive AppError where
  | badRequest (msg : String)
  | notFound (msg : String)
  | forbidden (msg : String)
  | castError (msg : String)
deriving DecidableEq

/-- `Club.countDocuments with admin equal to userId` -/
def clubCountByAdmin (db : DB) (userId : Nat) : Nat :=
  (db.clubs.filter fun kv => kv.2.admin == userId).length

/-- `pendingRequests.findIndex` followed by indexing: the first pending
request of the given user. -/
def findPending : List PendingRequest → Nat → Option PendingRequest
  | [], _ => none
  | r :: rest, uid => if r.userId = uid then some r else findPending rest uid

/-- Payload for `Club.create`; fields not listed here are either forced by
`createClub` (`admin`, `members`) or schema-defaulted (`captains = []`,
`pendingRequests = []`, `status = active`). -/
structure ClubData where
  name : String
  maxPlayers : Option Nat
deriving DecidableEq

/-- Patch payload for `updateClub` (`none` = key absent from the body). -/
structure ClubPatch where
  name : Option String
  admin : Option Nat
  captains : Option (List Nat)
  maxPlayers : Option Nat
  status : Option ClubStatus
deriving DecidableEq

/-- Merge a patch into a club document (`findByIdAndUpdate` with a plain
field object). -/
def applyPatch (c : Club) (p : ClubPatch) : Club :=
  { c with
    name := p.name.getD c.name
    admin := p.admin.getD c.admin
    captains := p.captains.getD c.captains
    maxPlayers := p.maxPlayers.getD c.maxPlayers
    status := p.status.getD c.status }

namespace ClubService

/-- `ClubService.createClub` (clubService.ts:42-105).
`user.subscriptions?.maxClubs || 0`: `maxClubs` is not a User schema
path, so the read is undefined and the guard value is 0 — the quota
BadRequest at clubService.ts:58-62 is unreachable.  The two trailing
`findByIdAndUpdate` calls (`$addToSet` on `clubs` and on
`subscriptions.clubIds`, clubService.ts:95-102) target non-schema paths
and are stripped to no-ops by strict mode, so the user document is
never written. -/
def createClub (db : DB) (clubData : ClubData) (userId : Nat) (userRole : UserRole) :
    Except AppError (Nat × Club × DB) :=
  match db.findUser userId with
  | none => .error (.notFound "User not found")
  | some user =>
    if userRole = UserRole.silver ∨ userRole = UserRole.gold ∨ userRole = UserRole.premium then
      let maxClubs : Nat := 0
      if 0 < maxClubs ∧ maxClubs ≤ clubCountByAdmin db userId then
        .error (.badRequest "You have reached the maximum limit of clubs for your subscription")
      else
        let subMaxPlayers := if user.subscriptions.maxPlayers = 0 then 25 else user.subscriptions.maxPlayers
        let maxPlayers :=
          match clubData.maxPlayers with
          | none => subMaxPlayers
          | some v => if v = 0 then subMaxPlayers else if v > subMaxPlayers then subMaxPlayers else v
        let club : Club :=
          { name := clubData.name
            admin := userId
            captains := []
            members := [{ userId := userId, skillRating := user.avgSkillRating,
                          positions := user.positions, goals := 0, assists := 0,
                          points := 0, matchesCount := 0 }]
            pendingRequests := []
            status := ClubStatus.active
            maxPlayers := maxPlayers }
        let clubId := db.nextClubId
        let db1 : DB := { db with clubs := db.clubs ++ [(clubId, club)], nextClubId := db.nextClubId + 1 }
        .ok (clubId, club, db1)
    else
      .error (.forbidden "Only users with subscription plans can create clubs")

/-- `ClubService.updateClub` (clubService.ts:114-149). -/
def updateClub (db : DB) (clubId : Nat) (updateData : ClubPatch) (userId : Nat) :
    Option Club × DB :=
  match db.findClub clubId with
  | none => (none, db)
  | some club =>
    if club.admin ≠ userId ∧ userId ∉ club.captains then
      (none, db)
    else
      let updateData :=
        if club.admin ≠ userId ∧ userId ∈ club.captains then
          { updateData with admin := none, captains := none, maxPlayers := none, status := none }
        else updateData
      (some (applyPatch club updateData), db.setClub clubId fun c => applyPatch c updateData)

/-- `ClubService.sendJoinRequest` (clubService.ts:255-307).  The
user-side `$addToSet` on `clubsRequests` (clubService.ts:302-304)
targets a non-schema path and is stripped by strict mode: only the club
document changes. -/
def sendJoinRequest (db : DB) (clubId userId : Nat) (requestedRole : String) :
    Except AppError (Bool × DB) :=
  match db.findClub clubId with
  | none => .error (.notFound "Club not found")
  | some club =>
    if club.status = ClubStatus.full then
      .error (.badRequest "Club is full")
    else if ∃ m ∈ club.members, m.userId = userId then
      .ok (false, db)
    else if ∃ r ∈ club.pendingRequests, r.userId = userId then
      .ok (false, db)
    else
      let db1 := db.setClub clubId fun c =>
        { c with pendingRequests := c.pendingRequests ++ [{ userId := userId, role := requestedRole }] }
      .ok (true, db1)

/-- `ClubService.cancelJoinRequest` (clubService.ts:315-347).  The
user-side `$pull` on `clubsRequests` (clubService.ts:342-344) targets a
non-schema path and is stripped by strict mode. -/
def cancelJoinRequest (db : DB) (clubId userId : Nat) : Except AppError (Bool × DB) :=
  match db.findClub clubId with
  | none => .ok (false, db)
  | some club =>
    if ∃ r ∈ club.pendingRequests, r.userId = userId then
      let db1 := db.setClub clubId fun c =>
        { c with pendingRequests := c.pendingRequests.filter fun r => r.userId != userId }
      .ok (true, db1)
    else
      .ok (false, db)

/-- `ClubService.acceptJoinRequest` (clubService.ts:356-449).  The
requester's final `findByIdAndUpdate` (`$pull clubsRequests`,
`$addToSet clubs`, clubService.ts:443-446) targets only non-schema
paths and is stripped by strict mode: only the club document changes. -/
def acceptJoinRequest (db : DB) (clubId requestUserId adminUserId : Nat) :
    Except AppError (Bool × DB) :=
  match db.findClub clubId with
  | none => .ok (false, db)
  | some club =>
    if club.admin ≠ adminUserId ∧ adminUserId ∉ club.captains then
      .ok (false, db)
    else
      match findPending club.pendingRequests requestUserId with
      | none => .ok (false, db)
      | some request =>
        match db.findUser requestUserId with
        | none => .ok (false, db)
        | some requestingUser =>
          if club.status = ClubStatus.full ∨
             (0 < club.maxPlayers ∧ club.maxPlayers ≤ club.members.length) then
            .error (.badRequest "Club is full")
          else
            let db1 := db.setClub clubId fun c =>
              { c with
                pendingRequests := c.pendingRequests.filter fun r => r.userId != requestUserId
                members := c.members ++ [{ userId := requestUserId,
                                           skillRating := requestingUser.avgSkillRating,
                                           positions := requestingUser.positions,
                                           goals := 0, assists := 0, points := 0,
                                           matchesCount := 0 }]
                captains := if request.role = "captain" ∧ club.admin = adminUserId then
                              addToSet c.captains requestUserId
                            else c.captains
                status := if 0 < club.maxPlayers ∧ club.maxPlayers ≤ club.members.length + 1 then
                            ClubStatus.full
                          else club.status }
            .ok (true, db1)

/-- `ClubService.rejectJoinRequest` (clubService.ts:458-506).  The
user-side `$pull` on `clubsRequests` (clubService.ts:501-503) targets a
non-schema path and is stripped by strict mode. -/
def rejectJoinRequest (db : DB) (clubId requestUserId adminUserId : Nat) :
    Except AppError (Bool × DB) :=
  match db.findClub clubId with
  | none => .ok (false, db)
  | some club =>
    if club.admin ≠ adminUserId ∧ adminUserId ∉ club.captains then
      .ok (false, db)
    else if ∃ r ∈ club.pendingRequests, r.userId = requestUserId then
      let db1 := db.setClub clubId fun c =>
        { c with pendingRequests := c.pendingRequests.filter fun r => r.userId != requestUserId }
      .ok (true, db1)
    else
      .ok (false, db)

end ClubService

/-- Limits of the `switch (newRole)` in `updateUserSubscription`
(userService.ts:172-193): `(newMaxClubs, newMaxPlayers, newCost)`.  The
catch-all keeps the initial zero values; it is unreachable after the
tier validation. -/
def subscriptionLimits : UserRole → Nat × Nat × Nat
  | UserRole.silver => (1, 25, 15)
  | UserRole.gold => (3, 30, 25)
  | UserRole.premium => (5, 500, 40)
  | _ => (0, 0, 0)

namespace UserService

/-- `UserService.updateUserSubscription` (userService.ts:143-258).  `now`
is the clock value supplying `new Date()`/`Date.now()` (milliseconds).
Downgrade guard A (userService.ts:196-205) compares `newMaxClubs` with
`currentSubscription.maxClubs` and with `clubIds?.length || 0`; neither
is a User schema path, so the first comparison is against `undefined`
(false in JS, as is any Nat `< 0`) and the length is 0 — the guard
never fires.  Downgrade guard B (userService.ts:207-218) uses the real
`subscriptions.maxPlayers` field and throws for the first owned club
over the new limit; here only the existence of a violating club decides
the branch.  The apply step (userService.ts:222-237) is a
`Club.updateMany` whose object-form (non-pipeline) update embeds the
aggregation operators `$cond`/`$size`; MongoDB does not evaluate
aggregation expressions in object updates, and Mongoose rejects the
call while casting the `$cond` object against the String-enum `status`
path.  Casting precedes execution, so nothing is written and the
subsequent user update (userService.ts:240-255) is never reached. -/
def updateUserSubscription (db : DB) (userId : Nat) (newRole : UserRole) (_now : Nat) :
    Except AppError (Option UserDoc × DB) :=
  match db.findUser userId with
  | none => .ok (none, db)
  | some user =>
    if ¬(newRole = UserRole.silver ∨ newRole = UserRole.gold ∨ newRole = UserRole.premium) then
      .error (.badRequest "Invalid subscription type")
    else if user.role = newRole then
      .ok (some user, db)
    else
      let newMaxClubs := (subscriptionLimits newRole).1
      let newMaxPlayers := (subscriptionLimits newRole).2.1
      let currentMaxClubs : Nat := 0
      let currentClubIdsLength : Nat := 0
      if newMaxClubs < currentMaxClubs ∧ newMaxClubs < currentClubIdsLength then
        .error (.badRequest "Cannot downgrade: too many clubs for the new plan")
      else if newMaxPlayers < user.subscriptions.maxPlayers ∧
              ∃ kv ∈ db.clubs, kv.2.admin = userId ∧ newMaxPlayers < kv.2.members.length then
        .error (.badRequest "Cannot downgrade: a club exceeds the new player limit")
      else
        .error (.castError "Cast to string failed for value of $cond at path status")

end UserService

/-- Post-state of an `acceptJoinRequest` call: a thrown error leaves the
store untouched (the throw precedes every write in the source). -/
def acceptStep (db : DB) (call : Nat × Nat × Nat) : DB :=
  match ClubService.acceptJoinRequest db call.1 call.2.1 call.2.2 with
  | .ok (_, db') => db'
  | .error _ => db

/-- Sequential execution of a list of `acceptJoinRequest` calls. -/
def acceptRun (db : DB) (calls : List (Nat × Nat × Nat)) : DB :=
  calls.foldl acceptStep db

/-- Capacity invariant on a store: every club has a positive player limit
(the schema requires `maxPlayers ≥ 2`) and no more members than it. -/
def CapacityOK (db : DB) : Prop :=
  ∀ cid c, db.findClub cid = some c → 0 < c.maxPlayers ∧ c.members.length ≤ c.maxPlayers

theorem lookupD_updateD_self {α : Type} (l : List (Nat × α)) (id : Nat) (f : α → α) :
    lookupD (updateD l id f) id = (lookupD l id).map f := by
  induction l with
  | nil => rfl
  | cons kv rest ih =>
    obtain ⟨k, v⟩ := kv
    by_cases h : k = id <;> simp [updateD, lookupD, h, ih]

theorem lookupD_updateD_ne {α : Type} (l : List (Nat × α)) (id j : Nat) (f : α → α)
    (h : j ≠ id) : lookupD (updateD l id f) j = lookupD l j := by
  induction l with
  | nil => rfl
  | cons kv rest ih =>
    obtain ⟨k, v⟩ := kv
    by_cases hk : k = id
    · have hj : ¬k = j := fun e => h (by omega)
      have hij : ¬id = j := fun e => h e.symm
      simp [updateD, lookupD, hk, hj, hij, ih]
    · by_cases hj : k = j
      · simp [updateD, lookupD, hk, hj, ih]
        intro e
        exact absurd e h
      · simp [updateD, lookupD, hk, hj, ih]

theorem mem_addToSet {l : List Nat} {x y : Nat} :
    y ∈ addToSet l x ↔ y ∈ l ∨ y = x := by
  unfold addToSet
  split
  · rename_i h
    constructor
    · exact Or.inl
    · rintro (hy | rfl)
      · exact hy
      · exact h
  · simp

theorem findClub_setClub_self (db : DB) (id : Nat) (f : Club → Club) :
    (db.setClub id f).findClub id = (db.findClub id).map f :=
  lookupD_updateD_self db.clubs id f

theorem findClub_setClub_ne (db : DB) (id j : Nat) (f : Club → Club) (h : j ≠ id) :
    (db.setClub id f).findClub j = db.findClub j :=
  lookupD_updateD_ne db.clubs id j f h

theorem lookupD_mem {α : Type} {l : List (Nat × α)} {j : Nat} {v : α}
    (h : lookupD l j = some v) : (j, v) ∈ l := by
  induction l with
  | nil => simp [lookupD] at h
  | cons kv rest ih =>
    obtain ⟨k, w⟩ := kv
    by_cases hk : k = j
    · subst hk
      simp [lookupD] at h
      subst h
      exact List.mem_cons_self _ _
    · simp [lookupD, hk] at h
      exact List.mem_cons_of_mem _ (ih h)

/-- One `acceptJoinRequest` call preserves the capacity invariant. -/
theorem capacityOK_acceptStep (db : DB) (call : Nat × Nat × Nat) (h : CapacityOK db) :
    CapacityOK (acceptStep db call) := by
  obtain ⟨cid0, rid, aid⟩ := call
  unfold acceptStep ClubService.acceptJoinRequest
  dsimp only
  cases hfc : db.findClub cid0 with
  | none => simpa using h
  | some club =>
    dsimp only
    by_cases hauth : club.admin ≠ aid ∧ aid ∉ club.captains
    · rw [if_pos hauth]
      simpa using h
    · rw [if_neg hauth]
      cases hfp : findPending club.pendingRequests rid with
      | none => simpa using h
      | some req =>
        dsimp only
        cases hfu : db.findUser rid with
        | none => simpa using h
        | some ru =>
          dsimp only
          by_cases hcap : club.status = ClubStatus.full ∨
              (0 < club.maxPlayers ∧ club.maxPlayers ≤ club.members.length)
          · rw [if_pos hcap]
            simpa using h
          · rw [if_neg hcap]
            dsimp only
            intro cid c hc
            by_cases hcid : cid = cid0
            · subst hcid
              rw [findClub_setClub_self, hfc] at hc
              simp only [Option.map_some'] at hc
              obtain rfl := Option.some.inj hc
              obtain ⟨hpos, _⟩ := h cid club hfc
              push_neg at hcap
              have hlt : club.members.length < club.maxPlayers := hcap.2 hpos
              refine ⟨hpos, ?_⟩
              simp only [List.length_append, List.length_cons, List.length_nil]
              omega
            · rw [findClub_setClub_ne _ _ _ _ hcid] at hc
              exact h cid c hc

/-- Fixture member record. -/
def mkMember (uid : Nat) : Member :=
  { userId := uid, skillRating := 5, positions := [], goals := 0, assists := 0,
    points := 0, matchesCount := 0 }

/-- Fixture gold-tier subscription (pre-save hook values: `maxGroups 3`,
`maxPlayers 30`, `cost 25`). -/
def subsGold : Subscriptions :=
  { groupIds := [], maxGroups := 3, maxPlayers := 30, cost := 25,
    startDate := none, endDate := none, isActive := true }

/-- Fixture empty subscription of a plain user (schema defaults). -/
def subsNone : Subscriptions :=
  { groupIds := [], maxGroups := 0, maxPlayers := 0, cost := 0,
    startDate := none, endDate := none, isActive := true }

/-- Fixture admin (id 1) of club 10. -/
def adminW : UserDoc :=
  { role := UserRole.gold, avgSkillRating := 7, positions := ["st"], groups := [],
    groupsRequests := [], subscriptions := subsGold }

/-- Fixture captain (id 2) of club 10. -/
def captainW : UserDoc :=
  { role := UserRole.user, avgSkillRating := 5, positions := [], groups := [],
    groupsRequests := [], subscriptions := subsNone }

/-- Fixture requester (id 3) with a pending captain request on club 10. -/
def requesterW : UserDoc :=
  { role := UserRole.user, avgSkillRating := 4, positions := [], groups := [],
    groupsRequests := [], subscriptions := subsNone }

/-- Fixture club 10: admin 1, captain 2, two members, pending request by 3. -/
def clubW : Club :=
  { name := "alpha", admin := 1, captains := [2], members := [mkMember 1, mkMember 2],
    pendingRequests := [{ userId := 3, role := "captain" }], status := ClubStatus.active,
    maxPlayers := 5 }

/-- Fixture store with club 10 and users 1, 2, 3. -/
def dbW : DB :=
  { clubs := [(10, clubW)], users := [(1, adminW), (2, captainW), (3, requesterW)],
    nextClubId := 11 }

/-- Fixture store in which the requesting user 3 has no document. -/
def dbNoRequester : DB :=
  { clubs := [(10, clubW)], users := [(1, adminW), (2, captainW)], nextClubId := 11 }

/-- Fixture super-admin user (pre-save hook values: `maxGroups 1000`,
`maxPlayers 1000`). -/
def superW : UserDoc :=
  { role := UserRole.superAdmin, avgSkillRating := 0, positions := [], groups := [],
    groupsRequests := [],
    subscriptions := { groupIds := [], maxGroups := 1000, maxPlayers := 1000, cost := 0,
                       startDate := none, endDate := none, isActive := true } }

/-- Fixture store with only the super-admin user 1. -/
def dbSuper : DB :=
  { clubs := [], users := [(1, superW)], nextClubId := 0 }

/-- Claim C10: when the club exists, the actor is admin or captain and a
matching pending request exists, but the requester has no user document,
`acceptJoinRequest` returns `false` (no error) and leaves the store — in
particular the stale pending entry — untouched. -/
theorem acceptJoin_missing_requester_noop (db : DB) (clubId reqId actorId : Nat)
    (club : Club) (req : PendingRequest)
    (hc : db.findClub clubId = some club)
    (hauth : ¬(club.admin ≠ actorId ∧ actorId ∉ club.captains))
    (hreq : findPending club.pendingRequests reqId = some req)
    (huser : db.findUser reqId = none) :
    ClubService.acceptJoinRequest db clubId reqId actorId = .ok (false, db) ∧
      db.findClub clubId = some club := by
  refine ⟨?_, hc⟩
  unfold ClubService.acceptJoinRequest
  rw [hc]
  simp only [if_neg hauth, hreq, huser]

theorem acceptJoin_missing_requester_noop_witness :
    ClubService.acceptJoinRequest dbNoRequester 10 3 1 = .ok (false, dbNoRequester) ∧
      dbNoRequester.findClub 10 = some clubW :=
  acceptJoin_missing_requester_noop dbNoRequester 10 3 1 clubW
    { userId := 3, role := "captain" } rfl (by decide) rfl rfl

/-- Claim C9: `updateClub` returns a null result and leaves the store
unchanged when the actor is neither admin nor captain, and when the actor
is a captain who is not the admin the club's `admin`, `captains`,
`maxPlayers` and `status` survive any patch unchanged. -/
theorem updateClub_authorization_frame :
    (∀ db clubId patch uid club, db.findClub clubId = some club →
       club.admin ≠ uid → uid ∉ club.captains →
       ClubService.updateClub db clubId patch uid = (none, db)) ∧
    (∀ db clubId patch uid club, db.findClub clubId = some club →
       club.admin ≠ uid → uid ∈ club.captains →
       ∃ c, (ClubService.updateClub db clubId patch uid).2.findClub clubId = some c ∧
         c.admin = club.admin ∧ c.captains = club.captains ∧
         c.maxPlayers = club.maxPlayers ∧ c.status = club.status) := by
  constructor
  · intro db clubId patch uid club hc hne hnin
    unfold ClubService.updateClub
    rw [hc]
    dsimp only
    rw [if_pos ⟨hne, hnin⟩]
  · intro db clubId patch uid club hc hne hin
    unfold ClubService.updateClub
    rw [hc]
    dsimp only
    rw [if_neg (by intro hx; exact hx.2 hin)]
    dsimp only
    rw [if_pos ⟨hne, hin⟩]
    refine ⟨applyPatch club ⟨patch.name, none, none, none, none⟩, ?_, rfl, rfl, rfl, rfl⟩
    dsimp only
    rw [findClub_setClub_self, hc]
    rfl

theorem updateClub_authorization_frame_witness :
    ClubService.updateClub dbW 10
      { name := some "beta", admin := some 2, captains := some [], maxPlayers := some 99,
        status := some ClubStatus.inactive } 3 = (none, dbW) ∧
    (∃ c, (ClubService.updateClub dbW 10
      { name := some "beta", admin := some 2, captains := some [], maxPlayers := some 99,
        status := some ClubStatus.inactive } 2).2.findClub 10 = some c ∧
      c.admin = clubW.admin ∧ c.captains = clubW.captains ∧
      c.maxPlayers = clubW.maxPlayers ∧ c.status = clubW.status) :=
  ⟨updateClub_authorization_frame.1 dbW 10 _ 3 clubW rfl (by decide) (by decide),
   updateClub_authorization_frame.2 dbW 10 _ 2 clubW rfl (by decide) (by decide)⟩

/-- Claim C7: on a pending request for role "captain", a captain who is
not the admin accepting makes the requester a member without touching
`captains`, while the admin accepting the same request makes the
requester a member and adds them to `captains`. -/
theorem acceptJoin_captain_promotion :
    (∀ db clubId reqId actorId club req u,
       db.findClub clubId = some club →
       club.admin ≠ actorId → actorId ∈ club.captains →
       findPending club.pendingRequests reqId = some req → req.role = "captain" →
       db.findUser reqId = some u →
       ¬(club.status = ClubStatus.full ∨
          (0 < club.maxPlayers ∧ club.maxPlayers ≤ club.members.length)) →
       ∃ db', ClubService.acceptJoinRequest db clubId reqId actorId = .ok (true, db') ∧
         ∃ c, db'.findClub clubId = some c ∧ (∃ m ∈ c.members, m.userId = reqId) ∧
           c.captains = club.captains) ∧
    (∀ db clubId reqId club req u,
       db.findClub clubId = some club →
       findPending club.pendingRequests reqId = some req → req.role = "captain" →
       db.findUser reqId = some u →
       ¬(club.status = ClubStatus.full ∨
          (0 < club.maxPlayers ∧ club.maxPlayers ≤ club.members.length)) →
       ∃ db', ClubService.acceptJoinRequest db clubId reqId club.admin = .ok (true, db') ∧
         ∃ c, db'.findClub clubId = some c ∧ (∃ m ∈ c.members, m.userId = reqId) ∧
           reqId ∈ c.captains) := by
  constructor
  · intro db clubId reqId actorId club req u hc hne hin hreq hrole hu hcap
    unfold ClubService.acceptJoinRequest
    rw [hc]
    dsimp only
    rw [if_neg (fun hx => hx.2 hin)]
    rw [hreq]
    dsimp only
    rw [hu]
    dsimp only
    rw [if_neg hcap]
    refine ⟨_, rfl, ?_⟩
    simp only [findClub_setClub_self, hc, Option.map_some']
    refine ⟨_, rfl, ?_, ?_⟩
    · exact ⟨_, List.mem_append_right _ (List.mem_singleton_self _), rfl⟩
    · exact if_neg (fun hx => hne hx.2)
  · intro db clubId reqId club req u hc hreq hrole hu hcap
    unfold ClubService.acceptJoinRequest
    rw [hc]
    dsimp only
    rw [if_neg (fun hx => hx.1 rfl)]
    rw [hreq]
    dsimp only
    rw [hu]
    dsimp only
    rw [if_neg hcap]
    refine ⟨_, rfl, ?_⟩
    simp only [findClub_setClub_self, hc, Option.map_some']
    refine ⟨_, rfl, ?_, ?_⟩
    · exact ⟨_, List.mem_append_right _ (List.mem_singleton_self _), rfl⟩
    · rw [if_pos ⟨hrole, trivial⟩]
      exact mem_addToSet.mpr (Or.inr rfl)

theorem acceptJoin_captain_promotion_witness :
    (∃ db', ClubService.acceptJoinRequest dbW 10 3 2 = .ok (true, db') ∧
       ∃ c, db'.findClub 10 = some c ∧ (∃ m ∈ c.members, m.userId = 3) ∧
         c.captains = clubW.captains) ∧
    (∃ db', ClubService.acceptJoinRequest dbW 10 3 clubW.admin = .ok (true, db') ∧
       ∃ c, db'.findClub 10 = some c ∧ (∃ m ∈ c.members, m.userId = 3) ∧
         3 ∈ c.captains) :=
  ⟨acceptJoin_captain_promotion.1 dbW 10 3 2 clubW { userId := 3, role := "captain" }
     requesterW rfl (by decide) (by decide) rfl rfl rfl (by decide),
   acceptJoin_captain_promotion.2 dbW 10 3 clubW { userId := 3, role := "captain" }
     requesterW rfl rfl rfl rfl (by decide)⟩

/-- Claim C8: on an existing non-full club, a user who is neither member
nor pending requester gets `true` from `sendJoinRequest` and `false` from
an immediate second call; a user with a pending request gets `true` from
`cancelJoinRequest` and `false` from an immediate second call. -/
theorem joinRequest_cancel_idempotence :
    (∀ db clubId uid role club, db.findClub clubId = some club →
       club.status ≠ ClubStatus.full →
       (∀ m ∈ club.members, m.userId ≠ uid) →
       (∀ r ∈ club.pendingRequests, r.userId ≠ uid) →
       ∃ db', ClubService.sendJoinRequest db clubId uid role = .ok (true, db') ∧
         ClubService.sendJoinRequest db' clubId uid role = .ok (false, db')) ∧
    (∀ db clubId uid club, db.findClub clubId = some club →
       (∃ r ∈ club.pendingRequests, r.userId = uid) →
       ∃ db', ClubService.cancelJoinRequest db clubId uid = .ok (true, db') ∧
         ClubService.cancelJoinRequest db' clubId uid = .ok (false, db')) := by
  constructor
  · intro db clubId uid role club hc hnf hnm hnp
    unfold ClubService.sendJoinRequest
    rw [hc]
    dsimp only
    rw [if_neg hnf]
    rw [if_neg (fun hx => by obtain ⟨m, hm, he⟩ := hx; exact hnm m hm he)]
    rw [if_neg (fun hx => by obtain ⟨r, hr, he⟩ := hx; exact hnp r hr he)]
    refine ⟨_, rfl, ?_⟩
    rw [findClub_setClub_self, hc]
    simp only [Option.map_some']
    dsimp only
    rw [if_neg hnf]
    rw [if_neg (fun hx => by obtain ⟨m, hm, he⟩ := hx; exact hnm m hm he)]
    rw [if_pos ⟨_, List.mem_append_right _ (List.mem_singleton_self _), rfl⟩]
  · intro db clubId uid club hc hp
    unfold ClubService.cancelJoinRequest
    rw [hc]
    dsimp only
    rw [if_pos hp]
    refine ⟨_, rfl, ?_⟩
    rw [findClub_setClub_self, hc]
    simp only [Option.map_some']
    dsimp only
    rw [if_neg (fun hx => by
      obtain ⟨r, hr, he⟩ := hx
      rw [List.mem_filter] at hr
      exact absurd he (by simpa using hr.2))]

theorem joinRequest_cancel_idempotence_witness :
    (∃ db', ClubService.sendJoinRequest dbW 10 4 "user" = .ok (true, db') ∧
       ClubService.sendJoinRequest db' 10 4 "user" = .ok (false, db')) ∧
    (∃ db', ClubService.cancelJoinRequest dbW 10 3 = .ok (true, db') ∧
       ClubService.cancelJoinRequest db' 10 3 = .ok (false, db')) :=
  ⟨joinRequest_cancel_idempotence.1 dbW 10 4 "user" clubW rfl (by decide) (by decide)
     (by decide),
   joinRequest_cancel_idempotence.2 dbW 10 3 clubW rfl
     ⟨{ userId := 3, role := "captain" }, by decide, rfl⟩⟩

/-- Post-state of an `updateUserSubscription` call: a thrown error leaves
the store untouched (both guards run before the first write). -/
def subscriptionStep (db : DB) (uid : Nat) (newRole : UserRole) (now : Nat) : DB :=
  match UserService.updateUserSubscription db uid newRole now with
  | .ok (_, db') => db'
  | .error _ => db

/-- Claim C6 counterexample: a super-admin caller with an existing user
document receives `Forbidden` from `createClub`, contradicting the claim
that super-admin is exempt; clubService.ts:50-74 only admits the three
paid tiers. -/
theorem createClub_superAdmin_forbidden_cex :
    ClubService.createClub dbSuper { name := "c", maxPlayers := none } 1
        UserRole.superAdmin
      = .error (.forbidden "Only users with subscription plans can create clubs") := rfl

/-- Claim C6 amended: for an existing caller, `createClub` fails
`Forbidden` exactly when the supplied tier is not one of the three paid
tiers — super-admin included among the Forbidden callers. -/
theorem createClub_forbidden_iff_not_paid (db : DB) (data : ClubData) (uid : Nat)
    (role : UserRole) (u : UserDoc) (hu : db.findUser uid = some u) :
    (∃ msg, ClubService.createClub db data uid role = .error (.forbidden msg)) ↔
      ¬(role = UserRole.silver ∨ role = UserRole.gold ∨ role = UserRole.premium) := by
  unfold ClubService.createClub
  rw [hu]
  dsimp only
  by_cases hrole : role = UserRole.silver ∨ role = UserRole.gold ∨ role = UserRole.premium
  · rw [if_pos hrole]
    constructor
    · rintro ⟨msg, hmsg⟩
      split at hmsg <;> simp at hmsg
    · intro hn
      exact absurd hrole hn
  · rw [if_neg hrole]
    simp [hrole]

theorem createClub_forbidden_iff_not_paid_witness :
    (∃ msg, ClubService.createClub dbSuper { name := "c", maxPlayers := none } 1
        UserRole.superAdmin = .error (.forbidden msg)) ↔
      ¬(UserRole.superAdmin = UserRole.silver ∨ UserRole.superAdmin = UserRole.gold ∨
        UserRole.superAdmin = UserRole.premium) :=
  createClub_forbidden_iff_not_paid dbSuper { name := "c", maxPlayers := none } 1
    UserRole.superAdmin superW rfl

/-- Claim C4: a tier change to a lower member ceiling fails with
`BadRequest` and mutates neither club nor user documents whenever some
owned club exceeds the new ceiling; both downgrade guards run before the
first write. -/
theorem subscription_downgrade_guard (db : DB) (uid : Nat) (newRole : UserRole)
    (now : Nat) (u : UserDoc)
    (hu : db.findUser uid = some u)
    (hrole : newRole = UserRole.silver ∨ newRole = UserRole.gold ∨
      newRole = UserRole.premium)
    (hne : u.role ≠ newRole)
    (hlow : (subscriptionLimits newRole).2.1 < u.subscriptions.maxPlayers)
    (hviol : ∃ kv ∈ db.clubs, kv.2.admin = uid ∧
      (subscriptionLimits newRole).2.1 < kv.2.members.length) :
    (∃ msg, UserService.updateUserSubscription db uid newRole now
        = .error (.badRequest msg)) ∧
      subscriptionStep db uid newRole now = db := by
  have herr : ∃ msg, UserService.updateUserSubscription db uid newRole now
      = .error (.badRequest msg) := by
    unfold UserService.updateUserSubscription
    rw [hu]
    dsimp only
    rw [if_neg (not_not_intro hrole)]
    rw [if_neg hne]
    rw [if_neg (fun h => Nat.not_lt_zero _ h.1)]
    rw [if_pos ⟨hlow, hviol⟩]
    exact ⟨_, rfl⟩
  refine ⟨herr, ?_⟩
  obtain ⟨msg, hmsg⟩ := herr
  unfold subscriptionStep
  rw [hmsg]

/-- Fixture club 20 owned by user 1 with 26 members (over the silver
ceiling of 25). -/
def clubBig : Club :=
  { name := "big", admin := 1, captains := [], members := (List.range 26).map mkMember,
    pendingRequests := [], status := ClubStatus.active, maxPlayers := 30 }

/-- Fixture store for the downgrade-guard witness. -/
def dbBig : DB :=
  { clubs := [(20, clubBig)], users := [(1, adminW)], nextClubId := 21 }

theorem subscription_downgrade_guard_witness :
    (∃ msg, UserService.updateUserSubscription dbBig 1 UserRole.silver 0
        = .error (.badRequest msg)) ∧
      subscriptionStep dbBig 1 UserRole.silver 0 = dbBig :=
  subscription_downgrade_guard dbBig 1 UserRole.silver 0 adminW rfl (by decide)
    (by decide) (by decide) ⟨(20, clubBig), by decide, by decide, by decide⟩

/-- Claim C5 (code_bug): a tier change that passes both downgrade
guards never performs the specified apply step.  The bulk
`Club.updateMany` (userService.ts:222-237) embeds the aggregation
operators `$cond`/`$size` in an object-form (non-pipeline) update;
MongoDB does not evaluate aggregation expressions there, and Mongoose
rejects the call while casting the `$cond` object against the
String-enum `status` path — before any write — so no club gets the new
`maxPlayers` or a conditional `full` status and the user's
role/subscription rewrite (userService.ts:240-255) is never reached.
Evaluated at a concrete failing input: gold user 1 of the fixture store
changes to premium, both guards pass, and the call rejects with the
cast error leaving the store untouched. -/
theorem subscription_change_apply_cast_error :
    UserService.updateUserSubscription dbW 1 UserRole.premium 0
      = .error (.castError "Cast to string failed for value of $cond at path status") ∧
    subscriptionStep dbW 1 UserRole.premium 0 = dbW :=
  ⟨rfl, rfl⟩

/-- Fixture plain user (id 4), neither a member of nor a pending
requester on club 10. -/
def user4W : UserDoc :=
  { role := UserRole.user, avgSkillRating := 3, positions := [], groups := [],
    groupsRequests := [], subscriptions := subsNone }

/-- Fixture store with club 10 and users 1, 2, 3, 4. -/
def dbMirror : DB :=
  { clubs := [(10, clubW)],
    users := [(1, adminW), (2, captainW), (3, requesterW), (4, user4W)],
    nextClubId := 11 }

/-- Claim C3 (code_bug): mirror symmetry between users and clubs does
not hold after `sendJoinRequest` runs to completion.  The club gains the
pending entry, but the user-side `$addToSet` on `clubsRequests`
(clubService.ts:302-304) targets a path absent from the User schema and
is stripped by Mongoose strict mode, so the user document — which has
no club-side pending-request set at all — is left byte-identical.
Evaluated at a concrete failing input: existing user 4 requests to join
the existing, non-full club 10; the call returns true, the club records
the request, and user 4's document is unchanged. -/
theorem sendJoinRequest_mirror_broken :
    ∃ db', ClubService.sendJoinRequest dbMirror 10 4 "user" = .ok (true, db') ∧
      (∃ c, db'.findClub 10 = some c ∧ ∃ r ∈ c.pendingRequests, r.userId = 4) ∧
      db'.findUser 4 = dbMirror.findUser 4 ∧
      dbMirror.findUser 4 = some user4W := by
  refine ⟨_, rfl, ⟨_, rfl, ?_⟩, rfl, rfl⟩
  exact ⟨{ userId := 4, role := "user" }, by decide, rfl⟩

/-- Claim C1: over any sequence of `acceptJoinRequest` calls the member
count of every club stays within its positive `maxPlayers` (the schema
requires `maxPlayers ≥ 2`); a call reaching the capacity check on a full
club throws `BadRequest` without mutating; a successful call that brings
the count up to the limit sets `status = full` in the same club update. -/
theorem acceptJoin_capacity_invariant :
    (∀ db calls, CapacityOK db → CapacityOK (acceptRun db calls)) ∧
    (∀ db clubId reqId actorId club req u,
       db.findClub clubId = some club →
       ¬(club.admin ≠ actorId ∧ actorId ∉ club.captains) →
       findPending club.pendingRequests reqId = some req →
       db.findUser reqId = some u →
       0 < club.maxPlayers →
       (club.status = ClubStatus.full ∨ club.maxPlayers ≤ club.members.length) →
       ClubService.acceptJoinRequest db clubId reqId actorId
         = .error (.badRequest "Club is full")) ∧
    (∀ db clubId reqId actorId club db',
       db.findClub clubId = some club →
       ClubService.acceptJoinRequest db clubId reqId actorId = .ok (true, db') →
       0 < club.maxPlayers → club.maxPlayers ≤ club.members.length + 1 →
       ∃ c, db'.findClub clubId = some c ∧ c.status = ClubStatus.full ∧
         c.members.length = club.members.length + 1) := by
  refine ⟨?_, ?_, ?_⟩
  · intro db calls h
    induction calls generalizing db with
    | nil => exact h
    | cons x xs ih => exact ih _ (capacityOK_acceptStep db x h)
  · intro db clubId reqId actorId club req u hc hauth hreq hu h0 hfull
    unfold ClubService.acceptJoinRequest
    rw [hc]
    dsimp only
    rw [if_neg hauth]
    rw [hreq]
    dsimp only
    rw [hu]
    dsimp only
    rw [if_pos (hfull.elim Or.inl fun hl => Or.inr ⟨h0, hl⟩)]
  · intro db clubId reqId actorId club db' hc hsucc h0 hge
    unfold ClubService.acceptJoinRequest at hsucc
    rw [hc] at hsucc
    dsimp only at hsucc
    by_cases hauth : club.admin ≠ actorId ∧ actorId ∉ club.captains
    · rw [if_pos hauth] at hsucc
      simp at hsucc
    · rw [if_neg hauth] at hsucc
      cases hfp : findPending club.pendingRequests reqId with
      | none =>
        rw [hfp] at hsucc
        simp at hsucc
      | some req =>
        rw [hfp] at hsucc
        dsimp only at hsucc
        cases hfu : db.findUser reqId with
        | none =>
          rw [hfu] at hsucc
          simp at hsucc
        | some ru =>
          rw [hfu] at hsucc
          dsimp only at hsucc
          by_cases hcap : club.status = ClubStatus.full ∨
              (0 < club.maxPlayers ∧ club.maxPlayers ≤ club.members.length)
          · rw [if_pos hcap] at hsucc
            simp at hsucc
          · rw [if_neg hcap] at hsucc
            simp only [Except.ok.injEq, Prod.mk.injEq, true_and] at hsucc
            subst hsucc
            simp only [findClub_setClub_self, hc, Option.map_some']
            refine ⟨_, rfl, ?_, ?_⟩
            · exact if_pos ⟨h0, hge⟩
            · simp [List.length_append]

/-- Fixture: club 30 at capacity (2 of 2) with a pending request by 3. -/
def clubFull : Club :=
  { name := "fullc", admin := 1, captains := [], members := [mkMember 1, mkMember 2],
    pendingRequests := [{ userId := 3, role := "user" }], status := ClubStatus.active,
    maxPlayers := 2 }

/-- Fixture store for the capacity BadRequest witness. -/
def dbFull : DB :=
  { clubs := [(30, clubFull)], users := [(1, adminW), (3, requesterW)], nextClubId := 31 }

/-- Fixture: club 40 one short of capacity (2 of 3), pending request by 3. -/
def clubAlmost : Club :=
  { name := "almost", admin := 1, captains := [], members := [mkMember 1, mkMember 2],
    pendingRequests := [{ userId := 3, role := "user" }], status := ClubStatus.active,
    maxPlayers := 3 }

/-- Fixture store for the capacity status-transition witness. -/
def dbAlmost : DB :=
  { clubs := [(40, clubAlmost)], users := [(1, adminW), (3, requesterW)], nextClubId := 41 }

theorem acceptJoin_capacity_invariant_witness :
    CapacityOK (acceptRun dbW [(10, 3, 1)]) ∧
    ClubService.acceptJoinRequest dbFull 30 3 1
      = .error (.badRequest "Club is full") ∧
    (∃ c, (acceptStep dbAlmost (40, 3, 1)).findClub 40 = some c ∧
      c.status = ClubStatus.full ∧
      c.members.length = clubAlmost.members.length + 1) :=
  ⟨acceptJoin_capacity_invariant.1 dbW [(10, 3, 1)] (by
      intro cid c hc
      have hm := lookupD_mem hc
      simp only [dbW, List.mem_cons, List.not_mem_nil, or_false, Prod.mk.injEq] at hm
      obtain ⟨rfl, rfl⟩ := hm
      decide),
   acceptJoin_capacity_invariant.2.1 dbFull 30 3 1 clubFull
     { userId := 3, role := "user" } requesterW rfl (by decide) rfl rfl (by decide)
     (by decide),
   acceptJoin_capacity_invariant.2.2 dbAlmost 40 3 1 clubAlmost _ rfl rfl (by decide)
     (by decide)⟩

/-- Fixture clubs 11 and 12, also administered by user 1 (single-member). -/
def clubOwned (n : Nat) : Club :=
  { name := n.repr, admin := 1, captains := [], members := [mkMember 1],
    pendingRequests := [], status := ClubStatus.active, maxPlayers := 25 }

/-- Fixture store in which gold user 1 already administers three clubs
(10, 11, 12) — at the gold quota of 3. -/
def dbOver : DB :=
  { clubs := [(10, clubW), (11, clubOwned 11), (12, clubOwned 12)],
    users := [(1, adminW)], nextClubId := 13 }

/-- Claim C2 (code_bug): the ownership quota is never enforced.  The
guard at clubService.ts:58-62 reads `user.subscriptions?.maxClubs || 0`,
but `maxClubs` is not a path of the User schema (models/User.ts defines
only `maxGroups`), so the guard value is always 0 and the quota
BadRequest is unreachable; the two user write-backs are likewise
stripped.  Evaluated at a concrete failing input: gold user 1 (schema
quota `maxGroups = 3`) already administers three clubs and successfully
creates a fourth, where the claim demands `BadRequest` and no
mutation. -/
theorem createClub_quota_not_enforced :
    adminW.subscriptions.maxGroups = 3 ∧
    clubCountByAdmin dbOver 1 = 3 ∧
    ∃ cid club db',
      ClubService.createClub dbOver { name := "fourth", maxPlayers := none } 1
          UserRole.gold
        = .ok (cid, club, db') ∧
      clubCountByAdmin db' 1 = 4 := by
  refine ⟨rfl, by decide, 13, _, _, rfl, by decide⟩
